import Mathlib

/-!
Verification development for the Decision-Support-System repository.

Shallow embedding of the core modules:
  * `src/src/GainLossSharingModule.ts` — the Variance & Sharing Engine
    (`GainLossSharingEngine.processVariance`), with currency amounts and
    sharing ratios embedded as rationals, and the wall clock made an
    explicit `now : String` argument standing for `new Date().toISOString()`.
  * `src/src/AuditTrail.ts` — the `AuditObject` record produced by the engine.
  * `src/src/SnapshotCompare.ts` — the `SnapshotEngine` with its id-keyed
    snapshot store (a JS `Map`, embedded as an association list whose `set`
    replaces an existing binding) and the `compare` delta report.
  * The Verification Gate's `decide` operation, whose backend implementation
    is not among the repository's files; it is modelled from the spec.
-/

namespace DSS

/-- Cost head enumeration from `CostInput.head` in GainLossSharingModule.ts. -/
inductive CostHead
  | OandM
  | Power_Purchase
  | Interest
  | Other
deriving DecidableEq, Repr

/-- Variance category from `CostInput.category`. -/
inductive VarianceCategory
  | Controllable
  | Uncontrollable
deriving DecidableEq, Repr

/-- The `CostInput` interface of GainLossSharingModule.ts: head, category,
approved and actual amounts, and the optional Phase-2 `anomaly_score`.
(The interface has no `isHumanVerified` field.) -/
structure CostInput where
  head : CostHead
  category : VarianceCategory
  approved : ℚ
  actual : ℚ
  anomaly_score : Option ℚ
deriving DecidableEq, Repr

/-- The `SharingConfig` interface: one utility/consumer share pair. -/
structure SharingConfig where
  utility_share : ℚ
  consumer_share : ℚ
deriving DecidableEq, Repr

/-- The `escalation_indices` field of `RegulatoryConfig`. -/
structure EscalationIndices where
  cpi_weight : ℚ
  wpi_weight : ℚ
deriving DecidableEq, Repr

/-- The `sharing_mechanism` field of `RegulatoryConfig`. -/
structure SharingMechanism where
  controllable_gains : SharingConfig
  controllable_losses : SharingConfig
  uncontrollable_variances : SharingConfig
deriving DecidableEq, Repr

/-- The `technical_loss_targets` field of `RegulatoryConfig`. -/
structure TechnicalLossTargets where
  sbu_distribution : ℚ
deriving DecidableEq, Repr

/-- The `RegulatoryConfig` interface of GainLossSharingModule.ts. -/
structure RegulatoryConfig where
  escalation_indices : EscalationIndices
  sharing_mechanism : SharingMechanism
  technical_loss_targets : TechnicalLossTargets
deriving DecidableEq, Repr

/-- The `RegulatoryReference` interface of AuditTrail.ts. -/
structure RegulatoryReference where
  clause : String
  description : String
  order_date : String
deriving DecidableEq, Repr

/-- The `metadata` field of `AuditObject` in AuditTrail.ts. -/
structure AuditMetadata where
  engine_version : String
  flags : List String
  ai_hooks_active : Option (List String)
deriving DecidableEq, Repr

/-- The `AuditObject` interface of AuditTrail.ts, with its generic parameter
instantiated at `CostInput` (the only shape the engine could put there);
`raw_data_snapshot?` is the optional field `raw_data_snapshot : Option CostInput`.
The interface has no checksum field. -/
structure AuditObject where
  timestamp : String
  scenario : String
  cost_head : CostHead
  variance_category : VarianceCategory
  approved_amount : ℚ
  actual_amount : ℚ
  variance_amount : ℚ
  disallowed_variance : ℚ
  passed_through_variance : ℚ
  logic_applied : String
  regulatory_reference : RegulatoryReference
  metadata : AuditMetadata
  raw_data_snapshot : Option CostInput
deriving DecidableEq, Repr

/-- String rendering of a cost head, as the TS union-typed string. -/
def CostHead.str : CostHead → String
  | CostHead.OandM => "O&M"
  | CostHead.Power_Purchase => "Power_Purchase"
  | CostHead.Interest => "Interest"
  | CostHead.Other => "Other"

/-- The body of `GainLossSharingEngine.processVariance` (GainLossSharingModule.ts,
lines 46-102). `config` is the engine's constructor argument, `now` the value of
`new Date().toISOString()` at the call. The mutable `utilityShareRatio` /
`consumerShareRatio` / `logicStr` assignments become one branch selection; the
JS truthiness test `input.anomaly_score && input.anomaly_score > 0.8` becomes
the explicit `s ≠ 0 ∧ s > 0.8` on the present score. -/
def processVariance (config : RegulatoryConfig) (now : String) (input : CostInput) :
    AuditObject :=
  let variance := input.approved - input.actual
  let branch : SharingConfig × String :=
    match input.category with
    | VarianceCategory.Controllable =>
        if variance ≥ 0 then
          (config.sharing_mechanism.controllable_gains,
            "Controllable Gain (Savings) split 2/3 Utility, 1/3 Consumer.")
        else
          (config.sharing_mechanism.controllable_losses,
            "Controllable Loss fully borne by Utility (Disallowed).")
    | VarianceCategory.Uncontrollable =>
        (config.sharing_mechanism.uncontrollable_variances,
          "Uncontrollable Variance fully passed through to Consumer.")
  let consumerImpact := |variance| * branch.1.consumer_share
  let disallowed : ℚ :=
    if input.category = VarianceCategory.Controllable ∧ ¬ variance ≥ 0 then
      |variance|
    else 0
  let passedThrough : ℚ :=
    if input.category = VarianceCategory.Uncontrollable then variance
    else if variance ≥ 0 then consumerImpact
    else 0
  { timestamp := now
    scenario :=
      if variance ≥ 0 then input.head.str ++ " Gain Sharing"
      else input.head.str ++ " Loss Disallowance"
    cost_head := input.head
    variance_category := input.category
    approved_amount := input.approved
    actual_amount := input.actual
    variance_amount := variance
    disallowed_variance := disallowed
    passed_through_variance := passedThrough
    logic_applied := branch.2
    regulatory_reference :=
      { clause := "Regulation 9.2 - Gain/Loss Sharing mechanism"
        description :=
          if input.category = VarianceCategory.Controllable then
            "Sharing of controllable factors efficiency gains/losses"
          else "Pass-through of uncontrollable factors"
        order_date := "30.06.2025" }
    metadata :=
      { engine_version := "Phase1-v1.0.0"
        flags :=
          match input.anomaly_score with
          | some s => if s ≠ 0 ∧ s > (0.8 : ℚ) then ["HIGH_ANOMALY_FLAG"] else []
          | none => []
        ai_hooks_active := none }
    raw_data_snapshot := none }

/-- The regulatory configuration used by the repository's demos
(SnapshotCompare.ts demo block and config/regulatory_config.yaml values). -/
def demoConfig : RegulatoryConfig :=
  { escalation_indices := { cpi_weight := 7/10, wpi_weight := 3/10 }
    sharing_mechanism :=
      { controllable_gains := { utility_share := 2/3, consumer_share := 1/3 }
        controllable_losses := { utility_share := 1, consumer_share := 0 }
        uncontrollable_variances := { utility_share := 0, consumer_share := 1 } }
    technical_loss_targets := { sbu_distribution := 14/100 } }

/-- An audit object with its timestamp field cleared: the projection of an
engine result onto everything except the wall-clock stamp. -/
def eraseTimestamp (a : AuditObject) : AuditObject :=
  { a with timestamp := "" }

/-- A sample cost input: a controllable overspend (loss), as in the demo. -/
def lossInput : CostInput :=
  { head := CostHead.OandM, category := VarianceCategory.Controllable,
    approved := 100, actual := 130, anomaly_score := none }

/-- A sample cost input: a controllable saving (gain), as in the demo. -/
def gainInput : CostInput :=
  { head := CostHead.OandM, category := VarianceCategory.Controllable,
    approved := 100, actual := 70, anomaly_score := none }

/-- A sample cost input: an uncontrollable overspend, as in the demo. -/
def uncontrollableInput : CostInput :=
  { head := CostHead.Power_Purchase, category := VarianceCategory.Uncontrollable,
    approved := 400, actual := 450, anomaly_score := none }

end DSS

namespace DSS

/-- C1 (amended): `processVariance` performs no verification check at all: the
`CostInput` type of the source has no `isHumanVerified` field, the function is
total, and every input — verified or not — is decomposed into an audit record
echoing its approved amount, actual amount and variance. -/
theorem engine_total_no_verification (config : RegulatoryConfig) (now : String)
    (input : CostInput) :
    (processVariance config now input).approved_amount = input.approved ∧
    (processVariance config now input).actual_amount = input.actual ∧
    (processVariance config now input).variance_amount = input.approved - input.actual :=
  ⟨rfl, rfl, rfl⟩

/-- C1 (counterexample): an input submitted directly to the engine — which,
lacking any `isHumanVerified` flag, stands for an unverified one — does not
fail: `processVariance` returns an audit record decomposing it. -/
theorem unverified_input_still_processed :
    (processVariance demoConfig "2025-01-01T00:00:00.000Z" lossInput).variance_amount
      = -30 := by
  norm_num [processVariance, lossInput]

/-- C2: for every verified controllable cost input with actual greater than
approved (a loss), the engine's result has `disallowed_variance` equal to
the absolute variance and `passed_through_variance` equal to zero. -/
theorem controllable_loss_disallowed (config : RegulatoryConfig) (now : String)
    (input : CostInput) (hc : input.category = VarianceCategory.Controllable)
    (hl : input.approved < input.actual) :
    (processVariance config now input).disallowed_variance
        = |input.approved - input.actual| ∧
    (processVariance config now input).passed_through_variance = 0 := by
  have hneg : ¬ input.approved - input.actual ≥ 0 := by
    simp only [ge_iff_le, not_le]
    linarith
  constructor <;> simp [processVariance, hc, hneg]

/-- C2 (witness): the spec's concrete scenario approved=100, actual=130,
Controllable: disallowed = 30, passed through = 0. -/
theorem controllable_loss_disallowed_witness :
    (processVariance demoConfig "W2" lossInput).disallowed_variance
        = |lossInput.approved - lossInput.actual| ∧
    (processVariance demoConfig "W2" lossInput).passed_through_variance = 0 :=
  controllable_loss_disallowed demoConfig "W2" lossInput rfl (by norm_num [lossInput])

/-- C3: for every verified controllable cost input with variance at least zero
(a gain), the engine passes through `variance × consumer_share(controllable_gains)`
and disallows nothing. -/
theorem controllable_gain_shared (config : RegulatoryConfig) (now : String)
    (input : CostInput) (hc : input.category = VarianceCategory.Controllable)
    (hg : input.approved - input.actual ≥ 0) :
    (processVariance config now input).passed_through_variance
        = (input.approved - input.actual)
            * config.sharing_mechanism.controllable_gains.consumer_share ∧
    (processVariance config now input).disallowed_variance = 0 := by
  constructor <;> simp [processVariance, hc, hg, abs_of_nonneg hg]

/-- C3 (witness): the spec's concrete scenario approved=100, actual=70,
Controllable with consumer share 1/3: passed through = 30 × 1/3, disallowed = 0. -/
theorem controllable_gain_shared_witness :
    (processVariance demoConfig "W3" gainInput).passed_through_variance
        = (gainInput.approved - gainInput.actual)
            * demoConfig.sharing_mechanism.controllable_gains.consumer_share ∧
    (processVariance demoConfig "W3" gainInput).disallowed_variance = 0 :=
  controllable_gain_shared demoConfig "W3" gainInput rfl (by norm_num [gainInput])

/-- C4: for every verified uncontrollable cost input, gain or loss, the engine
passes through the signed variance itself and disallows nothing. -/
theorem uncontrollable_passed_through (config : RegulatoryConfig) (now : String)
    (input : CostInput) (hc : input.category = VarianceCategory.Uncontrollable) :
    (processVariance config now input).passed_through_variance
        = input.approved - input.actual ∧
    (processVariance config now input).disallowed_variance = 0 := by
  constructor <;> simp [processVariance, hc]

/-- C4 (witness): the demo's uncontrollable scenario approved=400, actual=450:
passed through = −50 (the signed variance), disallowed = 0. -/
theorem uncontrollable_passed_through_witness :
    (processVariance demoConfig "W4" uncontrollableInput).passed_through_variance
        = uncontrollableInput.approved - uncontrollableInput.actual ∧
    (processVariance demoConfig "W4" uncontrollableInput).disallowed_variance = 0 :=
  uncontrollable_passed_through demoConfig "W4" uncontrollableInput rfl

/-- C5 (amended): apart from the `timestamp` field — which `processVariance`
stamps from the wall clock (`new Date().toISOString()`) on every invocation —
the engine's output is a pure function of `(CostInput, RegulatoryConfig)`:
erasing the timestamp, two invocations at any two instants agree exactly. -/
theorem engine_deterministic_except_timestamp (config : RegulatoryConfig)
    (t1 t2 : String) (input : CostInput) :
    eraseTimestamp (processVariance config t1 input)
      = eraseTimestamp (processVariance config t2 input) :=
  rfl

/-- C5 (counterexample): two invocations of the engine on an identical
`(CostInput, RegulatoryConfig)` pair at different clock instants yield records
that are not identical — the timestamp field differs. -/
theorem timestamp_breaks_byte_identity :
    processVariance demoConfig "2025-01-01T00:00:00.000Z" gainInput
      ≠ processVariance demoConfig "2025-01-01T00:00:01.000Z" gainInput := by
  intro h
  have h2 : ("2025-01-01T00:00:00.000Z" : String) = "2025-01-01T00:00:01.000Z" :=
    congrArg AuditObject.timestamp h
  simp at h2

/-- C8 (amended): the audit record produced by `processVariance` carries no
input snapshot: the optional `raw_data_snapshot` field is never set (and the
`AuditObject` interface has no checksum field at all). -/
theorem audit_snapshot_never_set (config : RegulatoryConfig) (now : String)
    (input : CostInput) :
    (processVariance config now input).raw_data_snapshot = none :=
  rfl

/-- C8 (counterexample): the record produced for a concrete input contains no
`inputSnapshot` — `raw_data_snapshot` is `none`, so no deep copy of the
originating `CostInput` (and no checksum) is stored with the result. -/
theorem audit_record_lacks_snapshot :
    (processVariance demoConfig "W8" uncontrollableInput).raw_data_snapshot = none :=
  rfl

/-- C9: the engine's result carries `HIGH_ANOMALY_FLAG` exactly when an anomaly
score is present and exceeds 0.8, carries no flag otherwise, and the anomaly
score never changes the variance, disallowed or passed-through amounts. -/
theorem anomaly_flag_iff_advisory (config : RegulatoryConfig) (now : String)
    (input : CostInput) :
    ((processVariance config now input).metadata.flags = ["HIGH_ANOMALY_FLAG"] ↔
      ∃ s, input.anomaly_score = some s ∧ (0.8 : ℚ) < s) ∧
    ((processVariance config now input).metadata.flags = ["HIGH_ANOMALY_FLAG"] ∨
      (processVariance config now input).metadata.flags = []) ∧
    ∀ q,
      (processVariance config now { input with anomaly_score := q }).variance_amount
          = (processVariance config now input).variance_amount ∧
      (processVariance config now { input with anomaly_score := q }).disallowed_variance
          = (processVariance config now input).disallowed_variance ∧
      (processVariance config now { input with anomaly_score := q }).passed_through_variance
          = (processVariance config now input).passed_through_variance := by
  obtain ⟨hd, cat, ap, ac, sc⟩ := input
  refine ⟨?_, ?_, fun q => ⟨rfl, rfl, rfl⟩⟩
  · cases sc with
    | none => simp [processVariance]
    | some s =>
        by_cases hs : (0.8 : ℚ) < s
        · have hs0 : s ≠ 0 := by
            have : (0 : ℚ) < s := lt_trans (by norm_num) hs
            exact ne_of_gt this
          simp [processVariance, hs, hs0]
        · simp [processVariance, hs]
  · cases sc with
    | none => simp [processVariance]
    | some s =>
        by_cases hs : (0.8 : ℚ) < s
        · have hs0 : s ≠ 0 := by
            have : (0 : ℚ) < s := lt_trans (by norm_num) hs
            exact ne_of_gt this
          simp [processVariance, hs, hs0]
        · simp [processVariance, hs]

/-! ### Verification Gate (Mapping State Machine)

The gate's `decide` operation runs in the backend service, whose source is not
among the repository's files (only its callers in
`frontend/src/components/mapping/MappingWorkbench.tsx` and its request/response
types are). It is modelled from the spec. -/

/-- Lifecycle status of a mapping suggestion: Pending, then exactly one of the
three terminal statuses. -/
inductive MappingStatus
  | Pending
  | Confirmed
  | Overridden
  | Rejected
deriving DecidableEq, Repr

/-- A human decision on a pending suggestion. -/
inductive GateDecision
  | Confirmed
  | Overridden
  | Rejected
deriving DecidableEq, Repr

/-- Errors of the gate's `decide` operation. -/
inductive GateError
  | InvalidTransition
  | MissingComment
deriving DecidableEq, Repr

/-- A mapping suggestion: a proposed classification of a raw extracted field,
with the decision fields stamped once it is resolved. -/
structure MappingSuggestion where
  sourceField : String
  suggestedHead : CostHead
  suggestedCategory : VarianceCategory
  confidence : ℚ
  status : MappingStatus
  decidedBy : Option String
  comment : Option String
  decidedAt : Option String
deriving DecidableEq, Repr

/-- The terminal status a decision transitions a suggestion into. -/
def GateDecision.target : GateDecision → MappingStatus
  | GateDecision.Confirmed => MappingStatus.Confirmed
  | GateDecision.Overridden => MappingStatus.Overridden
  | GateDecision.Rejected => MappingStatus.Rejected

/-- Modelled from the spec: the Verification Gate's `decide` operation (its
backend implementation is not among the repository's files). It fails with
`InvalidTransition` if the suggestion is not Pending; fails with
`MissingComment` if the decision is Overridden or Rejected and the comment is
empty; on success, transitions to the terminal status and stamps
actor and timestamp. -/
def Gate.decide (s : MappingSuggestion) (d : GateDecision)
    (comment actorId now : String) : Except GateError MappingSuggestion :=
  if s.status ≠ MappingStatus.Pending then
    Except.error GateError.InvalidTransition
  else if (d = GateDecision.Overridden ∨ d = GateDecision.Rejected) ∧ comment = "" then
    Except.error GateError.MissingComment
  else
    Except.ok
      { s with
        status := d.target
        decidedBy := some actorId
        comment := some comment
        decidedAt := some now }

/-- A pending suggestion, as the extraction collaborator creates one. -/
def pendingSugg : MappingSuggestion :=
  { sourceField := "O&M Expenses", suggestedHead := CostHead.OandM,
    suggestedCategory := VarianceCategory.Controllable, confidence := 9/10,
    status := MappingStatus.Pending, decidedBy := none, comment := none,
    decidedAt := none }

/-- A suggestion already resolved to Confirmed (a non-Pending state). -/
def confirmedSugg : MappingSuggestion :=
  { pendingSugg with
    status := MappingStatus.Confirmed
    decidedBy := some "officer1"
    comment := some "ok"
    decidedAt := some "2025-01-01T00:00:00.000Z" }

/-- C7: `Gate.decide` fails with `InvalidTransition` whenever the suggestion is
not Pending, regardless of decision, comment or actor; fails with
`MissingComment` whenever the suggestion is Pending, the decision is Overridden
or Rejected, and the comment is empty; and only otherwise transitions the
suggestion to the chosen terminal status, stamping actor and timestamp. -/
theorem gate_decide_contract (s : MappingSuggestion) (d : GateDecision)
    (c a t : String) :
    (s.status ≠ MappingStatus.Pending →
      Gate.decide s d c a t = Except.error GateError.InvalidTransition) ∧
    (s.status = MappingStatus.Pending →
      (d = GateDecision.Overridden ∨ d = GateDecision.Rejected) → c = "" →
      Gate.decide s d c a t = Except.error GateError.MissingComment) ∧
    (s.status = MappingStatus.Pending →
      ((d = GateDecision.Overridden ∨ d = GateDecision.Rejected) → c ≠ "") →
      Gate.decide s d c a t =
        Except.ok
          { s with
            status := d.target
            decidedBy := some a
            comment := some c
            decidedAt := some t }) := by
  refine ⟨fun h => ?_, fun hp hd hc => ?_, fun hp hcn => ?_⟩
  · simp [Gate.decide, h]
  · rcases hd with hd | hd <;> simp [Gate.decide, hp, hd, hc]
  · have hfalse : ¬ ((d = GateDecision.Overridden ∨ d = GateDecision.Rejected) ∧ c = "") :=
      fun hand => hcn hand.1 hand.2
    simp [Gate.decide, hp, hfalse]

/-- C7 (witness): concrete instances of the gate contract. Deciding an
already-Confirmed suggestion fails with `InvalidTransition`; overriding a
Pending suggestion with an empty comment fails with `MissingComment`;
confirming a Pending suggestion with a comment succeeds and stamps the
actor and timestamp. -/
theorem gate_decide_contract_witness :
    Gate.decide confirmedSugg GateDecision.Confirmed "approved" "officer2" "TW"
        = Except.error GateError.InvalidTransition ∧
    Gate.decide pendingSugg GateDecision.Overridden "" "officer2" "TW"
        = Except.error GateError.MissingComment ∧
    Gate.decide pendingSugg GateDecision.Confirmed "looks right" "officer2" "TW"
        = Except.ok
            { pendingSugg with
              status := GateDecision.Confirmed.target
              decidedBy := some "officer2"
              comment := some "looks right"
              decidedAt := some "TW" } :=
  ⟨(gate_decide_contract confirmedSugg GateDecision.Confirmed "approved" "officer2" "TW").1
      (by simp [confirmedSugg]),
   (gate_decide_contract pendingSugg GateDecision.Overridden "" "officer2" "TW").2.1
      rfl (Or.inl rfl) rfl,
   (gate_decide_contract pendingSugg GateDecision.Confirmed "looks right" "officer2" "TW").2.2
      rfl (by simp)⟩

/-! ### SnapshotEngine (SnapshotCompare.ts)

The `snapshots` member is a JS `Map<string, Snapshot>`, embedded as an
association list: `Map.set` replaces the value of an existing key in place and
otherwise appends, `Map.get` returns the value bound to the key. -/

/-- The `Snapshot` interface of SnapshotCompare.ts. -/
structure Snapshot where
  id : String
  label : String
  created_at : String
  created_by : String
  inputs : List CostInput
  results : List AuditObject
  total_revenue_gap : ℚ
deriving DecidableEq, Repr

/-- One scenario summary inside a `DeltaReport` (`{id, label, revenue_gap}`). -/
structure DeltaScenario where
  id : String
  label : String
  revenue_gap : ℚ
deriving DecidableEq, Repr

/-- The `impact_direction` union of `DeltaReport`. -/
inductive ImpactDirection
  | FAVORABLE
  | ADVERSE
  | NEUTRAL
deriving DecidableEq, Repr

/-- The `DeltaLineItem` interface of SnapshotCompare.ts. -/
structure DeltaLineItem where
  cost_head : String
  scenario_a_variance : ℚ
  scenario_b_variance : ℚ
  delta : ℚ
deriving DecidableEq, Repr

/-- The `DeltaReport` interface of SnapshotCompare.ts. -/
structure DeltaReport where
  timestamp : String
  scenario_a : DeltaScenario
  scenario_b : DeltaScenario
  delta : ℚ
  impact_direction : ImpactDirection
  line_items : List DeltaLineItem
deriving DecidableEq, Repr

/-- `Map.set` of the JS snapshot store: replaces the value bound to an
existing key, otherwise appends the binding at the end. -/
def storeSet (m : List (String × Snapshot)) (k : String) (v : Snapshot) :
    List (String × Snapshot) :=
  if m.any (fun p => p.1 == k) then
    m.map (fun p => if p.1 == k then (k, v) else p)
  else
    m ++ [(k, v)]

/-- `Map.get` of the JS snapshot store. -/
def storeGet (m : List (String × Snapshot)) (k : String) : Option Snapshot :=
  (m.find? (fun p => p.1 == k)).map Prod.snd

/-- The `SnapshotEngine` class state: its `GainLossSharingEngine`'s config and
the private `snapshots` map. -/
structure SnapshotEngine where
  config : RegulatoryConfig
  snapshots : List (String × Snapshot)

/-- The body of `SnapshotEngine.createSnapshot` (SnapshotCompare.ts, lines
48-64): runs the engine over the inputs, totals the variance amounts into the
revenue gap, stores the snapshot under its id and returns it together with the
updated engine state. `now` stands for `new Date().toISOString()`. -/
def SnapshotEngine.createSnapshot (eng : SnapshotEngine)
    (id label createdBy now : String) (inputs : List CostInput) :
    Snapshot × SnapshotEngine :=
  let results := inputs.map (processVariance eng.config now)
  let totalGap := results.foldl (fun sum r => sum + r.variance_amount) 0
  let snapshot : Snapshot :=
    { id := id, label := label, created_at := now, created_by := createdBy,
      inputs := inputs, results := results, total_revenue_gap := totalGap }
  (snapshot, { eng with snapshots := storeSet eng.snapshots id snapshot })

/-- The body of `SnapshotEngine.compare` (SnapshotCompare.ts, lines 69-101):
looks both snapshots up by id (throwing when one is missing — the thrown
message's key listing is abbreviated here), builds the per-index line items
with the JS optional-chaining fallbacks, and classifies the delta. -/
def SnapshotEngine.compare (eng : SnapshotEngine)
    (scenarioAId scenarioBId now : String) : Except String DeltaReport :=
  match storeGet eng.snapshots scenarioAId, storeGet eng.snapshots scenarioBId with
  | some a, some b =>
      let maxLen := max a.results.length b.results.length
      let lineItems : List DeltaLineItem :=
        (List.range maxLen).map (fun i =>
          let aResult := a.results[i]?
          let bResult := b.results[i]?
          { cost_head :=
              match aResult, bResult with
              | some r, _ => r.cost_head.str
              | none, some r => r.cost_head.str
              | none, none => "Unknown"
            scenario_a_variance := (aResult.map AuditObject.variance_amount).getD 0
            scenario_b_variance := (bResult.map AuditObject.variance_amount).getD 0
            delta := (bResult.map AuditObject.variance_amount).getD 0
                - (aResult.map AuditObject.variance_amount).getD 0 })
      let delta := b.total_revenue_gap - a.total_revenue_gap
      Except.ok
        { timestamp := now
          scenario_a := { id := a.id, label := a.label, revenue_gap := a.total_revenue_gap }
          scenario_b := { id := b.id, label := b.label, revenue_gap := b.total_revenue_gap }
          delta := delta
          impact_direction :=
            if delta > 0 then ImpactDirection.FAVORABLE
            else if delta < 0 then ImpactDirection.ADVERSE
            else ImpactDirection.NEUTRAL
          line_items := lineItems }
  | _, _ => Except.error "Snapshot not found."

/-- Replacing every binding of a key in the store leaves `find?` on that key
at the replacement, provided some binding of the key is present. -/
theorem find?_map_replace (m : List (String × Snapshot)) (k : String) (v : Snapshot)
    (h : m.any (fun p => p.1 == k) = true) :
    (m.map (fun p => if p.1 == k then (k, v) else p)).find? (fun p => p.1 == k)
      = some (k, v) := by
  induction m with
  | nil => simp at h
  | cons p t ih =>
      by_cases hp : (p.1 == k) = true
      · rw [List.map_cons, if_pos hp, List.find?_cons_of_pos]
        exact beq_self_eq_true k
      · have ht : t.any (fun q => q.1 == k) = true := by
          simp only [List.any_cons, hp, Bool.false_or] at h
          exact h
        rw [List.map_cons, if_neg hp, List.find?_cons_of_neg (p := fun (q : String × Snapshot) => q.1 == k) _ hp]
        exact ih ht

/-- `find?` over an append skips a left part holding no binding of the key. -/
theorem find?_append_right (m l : List (String × Snapshot)) (k : String)
    (h : m.any (fun p => p.1 == k) = false) :
    (m ++ l).find? (fun p => p.1 == k) = l.find? (fun p => p.1 == k) := by
  induction m with
  | nil => rfl
  | cons p t ih =>
      simp only [List.any_cons, Bool.or_eq_false_iff] at h
      have hp : ¬ ((p.1 == k) = true) := by
        rw [h.1]
        exact Bool.false_ne_true
      rw [List.cons_append, List.find?_cons_of_neg (p := fun (q : String × Snapshot) => q.1 == k) _ hp]
      exact ih h.2

/-- Replacing every binding of a key preserves the number of bindings of that
key (and the predicate value of every entry). -/
theorem countP_map_replace (m : List (String × Snapshot)) (k : String) (v : Snapshot) :
    (m.map (fun p => if p.1 == k then (k, v) else p)).countP (fun p => p.1 == k)
      = m.countP (fun p => p.1 == k) := by
  induction m with
  | nil => rfl
  | cons p t ih =>
      by_cases hp : (p.1 == k) = true
      · rw [List.map_cons, if_pos hp, List.countP_cons, List.countP_cons, ih,
          if_pos hp, if_pos (beq_self_eq_true k)]
      · rw [List.map_cons, if_neg hp, List.countP_cons, List.countP_cons, ih]

/-- Looking a key up right after `storeSet` of that key yields the new value:
the store maps the key to the snapshot most recently set under it. -/
theorem storeGet_storeSet_self (m : List (String × Snapshot)) (k : String)
    (v : Snapshot) : storeGet (storeSet m k v) k = some v := by
  unfold storeGet storeSet
  by_cases h : m.any (fun p => p.1 == k) = true
  · rw [if_pos h, find?_map_replace m k v h]
    rfl
  · have h' : m.any (fun p => p.1 == k) = false := Bool.eq_false_iff.mpr h
    rw [if_neg h, find?_append_right m [(k, v)] k h',
      List.find?_cons_of_pos (p := fun (q : String × Snapshot) => q.1 == k) _ (beq_self_eq_true k)]
    rfl

/-- After a `storeSet` of a key, the store holds a binding for that key. -/
theorem any_storeSet (m : List (String × Snapshot)) (k : String) (v : Snapshot) :
    (storeSet m k v).any (fun p => p.1 == k) = true := by
  have h := storeGet_storeSet_self m k v
  unfold storeGet at h
  rcases hf : (storeSet m k v).find? (fun p => p.1 == k) with _ | q
  · rw [hf] at h
    simp at h
  · have hq := List.find?_some hf
    rw [List.any_eq_true]
    exact ⟨q, List.mem_of_find?_eq_some hf, hq⟩

/-- `storeSet` of a key already in the store replaces the binding: the number
of entries for that key does not change (nothing is appended alongside). -/
theorem countP_storeSet_of_any (m : List (String × Snapshot)) (k : String)
    (v : Snapshot) (h : m.any (fun p => p.1 == k) = true) :
    (storeSet m k v).countP (fun p => p.1 == k)
      = m.countP (fun p => p.1 == k) := by
  unfold storeSet
  rw [if_pos h]
  exact countP_map_replace m k v

/-- C10: the snapshot store always maps an id to the snapshot created by the
most recent `createSnapshot` call with that id. A second `createSnapshot`
reusing an id silently replaces the earlier snapshot — it neither fails nor
appends alongside it (the number of entries under the id is unchanged) — and
any later `compare` naming that id reads the replacement's revenue gap on
both sides. The store is therefore not write-once. -/
theorem snapshot_overwrite_semantics (eng : SnapshotEngine)
    (id l1 b1 t1 l2 b2 t2 : String) (ins1 ins2 : List CostInput) :
    storeGet
        (((eng.createSnapshot id l1 b1 t1 ins1).2.createSnapshot
            id l2 b2 t2 ins2).2).snapshots id
      = some ((eng.createSnapshot id l1 b1 t1 ins1).2.createSnapshot
            id l2 b2 t2 ins2).1 ∧
    ((((eng.createSnapshot id l1 b1 t1 ins1).2.createSnapshot
            id l2 b2 t2 ins2).2).snapshots.countP (fun p => p.1 == id))
      = ((eng.createSnapshot id l1 b1 t1 ins1).2).snapshots.countP
          (fun p => p.1 == id) ∧
    ∀ now, ∃ r,
      (((eng.createSnapshot id l1 b1 t1 ins1).2.createSnapshot
          id l2 b2 t2 ins2).2).compare id id now = Except.ok r ∧
      r.scenario_a.revenue_gap
        = ((eng.createSnapshot id l1 b1 t1 ins1).2.createSnapshot
            id l2 b2 t2 ins2).1.total_revenue_gap ∧
      r.scenario_b.revenue_gap
        = ((eng.createSnapshot id l1 b1 t1 ins1).2.createSnapshot
            id l2 b2 t2 ins2).1.total_revenue_gap := by
  have h1 :
      storeGet
          (((eng.createSnapshot id l1 b1 t1 ins1).2.createSnapshot
              id l2 b2 t2 ins2).2).snapshots id
        = some ((eng.createSnapshot id l1 b1 t1 ins1).2.createSnapshot
              id l2 b2 t2 ins2).1 :=
    storeGet_storeSet_self _ id _
  refine ⟨h1, ?_, ?_⟩
  · exact countP_storeSet_of_any _ id _ (any_storeSet eng.snapshots id _)
  · intro now
    simp only [SnapshotEngine.compare, h1]
    exact ⟨_, rfl, rfl, rfl⟩

end DSS
